import Mathlib

/-!
Verification of the parallel audio upload stage (`upload_audio.py`) of the
VAPI → Supabase ETL pipeline.

The upload stage is embedded shallowly: every network interaction
(HEAD existence probe, signed-URL issuance, download + store of a recording)
is modelled by an explicit environment value describing what the remote side
does, and each Python function becomes a total Lean function over that
environment.  Python exceptions become `Except` values or outcome
constructors; Python `None` becomes `Option.none`; Python truthiness of an
optional string (`if s:`) is `strTruthy`.  Randomness (`random.uniform`) is
an explicit jitter parameter.  Wall-clock sleeps are recorded in an explicit
trace of sleep durations (in seconds, as rationals).
-/

namespace UploadAudio

/-- Python truthiness of an optional string: `None` and `""` are falsy. -/
def strTruthy : Option String → Bool
  | none => false
  | some s => !s.isEmpty

/-- Python `a or b` restricted to optional strings: the first operand if it
is truthy, otherwise the second operand verbatim. -/
def pyOr (a b : Option String) : Option String :=
  if strTruthy a then a else b

/-- Configuration constant `MAX_RETRIES` from `config.py`. -/
def MAX_RETRIES : Nat := 3

/-- Configuration constant `BACKOFF_BASE` (seconds) from `config.py`. -/
def BACKOFF_BASE : ℚ := 2

/-- Configuration constant `MAX_WORKERS` from `config.py`. -/
def MAX_WORKERS : Nat := 5

/-- Input row handed to the orchestrator: a record key (`row["id"]`) and an
optional source audio URL (`row.get("stereo_recording_url")`). -/
structure Row where
  id : String
  stereo_recording_url : Option String
  deriving DecidableEq

/-- Outcome of the HEAD request issued by `_file_exists_in_bucket`:
either an HTTP status code or a raised `requests.RequestException`. -/
inductive HeadOutcome where
  | status (code : Nat)
  | exn
  deriving DecidableEq

/-- What the remote `create_signed_url` call does: raise, or return a
response dictionary whose `signedURL` / `signed_url` entries are modelled
as optional strings (absent key = `none`). -/
inductive IssueOutcome where
  | raises
  | returns (signedURL signed_url : Option String)
  deriving DecidableEq

/-- Result of `_generate_signed_url`: the pair the Python function returns
plus whether `logger.success` was emitted (used to tell the success log
apart from the error log in the failure analysis). -/
structure IssueResult where
  signed_url : Option String
  expiry : Option String
  loggedSuccess : Bool
  deriving DecidableEq

/-- Embedding of `_generate_signed_url` (`upload_audio.py` lines 85-104).
`expiryIso` stands for `(datetime.now(utc) + timedelta(seconds=expires_in)).isoformat()`,
an environment input.  On a raised remote error the function logs an error
and returns `(None, None)`; otherwise it extracts
`data.get("signedURL") or data.get("signed_url")`, logs success
unconditionally, and returns the (possibly null) URL with the locally
computed expiry. -/
def generate_signed_url (callId : String) (o : IssueOutcome) (expiryIso : String) :
    IssueResult :=
  match o with
  | .raises => ⟨none, none, false⟩
  | .returns f1 f2 => ⟨pyOr f1 f2, some expiryIso, true⟩

/-- Outcome of one `_upload_recording` attempt, as decided by the remote
world: the download (`requests.get` + `raise_for_status`) fails, the store
(`bucket.upload`) fails, an `OSError` with `winerror == 10035` (transient
network congestion) is raised, or download and store both succeed and the
signed-URL issuance behaves as described by `IssueOutcome`. -/
inductive FetchOutcome where
  | downloadFails (cause : String)
  | storeFails (cause : String)
  | congestion
  | ok (issue : IssueOutcome)
  deriving DecidableEq

/-- Whether a fetch outcome is a failure of download or store (any raise). -/
def failsOutcome : FetchOutcome → Bool
  | .ok _ => false
  | _ => true

/-- Whether a fetch outcome is a generic (non-congestion) failure. -/
def genericFail : FetchOutcome → Bool
  | .downloadFails _ => true
  | .storeFails _ => true
  | _ => false

/-- Environment for one `_upload_recording` invocation: the remote outcome,
the jitter used in the congestion sleep, and the expiry timestamp computed
at issuance time. -/
structure UploadAttemptEnv where
  fetch : FetchOutcome
  congJitter : ℚ
  expiryIso : String

/-- Error raised out of `_upload_recording`: the re-raised congestion
`OSError`, or the `RuntimeError(f"Upload failed for {call_id}: {e}")`
wrapping any other failure. -/
inductive UploadError where
  | congestionRaised
  | runtimeError (callId cause : String)
  deriving DecidableEq

/-- Embedding of `_upload_recording` (`upload_audio.py` lines 110-142).
Returns the Python return value (or raised error) together with the list of
sleeps performed inside the call (the congestion branch sleeps
`3 + random.uniform(0, 2)` before re-raising). -/
def upload_recording (callId url : String) (env : UploadAttemptEnv) :
    Except UploadError (Option String × Option String) × List ℚ :=
  match env.fetch with
  | .downloadFails c => (.error (.runtimeError callId c), [])
  | .storeFails c => (.error (.runtimeError callId c), [])
  | .congestion => (.error .congestionRaised, [3 + env.congJitter])
  | .ok iss =>
      let r := generate_signed_url callId iss env.expiryIso
      (.ok (r.signed_url, r.expiry), [])

/-- Embedding of `_file_exists_in_bucket` (`upload_audio.py` lines 49-79).
The shared cache `_seen_existing_files` is threaded explicitly as a list of
keys.  Returns `(result, new cache, whether a HEAD network call was made)`.
A cached key short-circuits to `true` with no network call; a 200 response
caches the key and returns `true`; 404, any other status, and a raised
request exception all return `false` without caching. -/
def file_exists_in_bucket (cache : List String) (callId : String) (h : HeadOutcome) :
    Bool × List String × Bool :=
  if callId ∈ cache then (true, cache, false)
  else
    match h with
    | .status code =>
        if code = 200 then (true, callId :: cache, true)
        else (false, cache, true)
    | .exn => (false, cache, true)

/-- Folding a sequence of further probes (key, HEAD outcome) over a cache,
returning the final cache; models later probe activity within the same run. -/
def probeRun (cache : List String) : List (String × HeadOutcome) → List String
  | [] => cache
  | (k, h) :: rest => probeRun (file_exists_in_bucket cache k h).2.1 rest

/-- Per-row terminal outcome: the 4-tuple returned by `upload_task`. -/
structure TaskResult where
  call_id : String
  signed_url : Option String
  expiry : Option String
  status : String
  deriving DecidableEq

/-- An entry of the `failed_records` spool:
`{"id": call_id, "stereo_recording_url": stereo_url}`. -/
structure FailedRec where
  id : String
  stereo_recording_url : String
  deriving DecidableEq

/-- Environment for one row's processing: the HEAD outcome of the probe (if
one is issued), the issuance behaviour on the already-exists path, and the
per-attempt upload environments and backoff jitters (indexed by attempt
number, 1-based as in the Python loop). -/
structure RowEnv where
  head : HeadOutcome
  existsIssue : IssueOutcome
  existsExpiryIso : String
  attempt : Nat → UploadAttemptEnv
  backoffJitter : Nat → ℚ

/-- Output of the retry loop of `upload_task`: the returned result (`none`
models the Python loop falling through without returning, which only
happens when `MAX_RETRIES = 0`), the `failed_records` entries appended, the
sleeps performed, and the number of `_upload_recording` invocations. -/
structure LoopOut where
  result : Option TaskResult
  failed : List FailedRec
  sleeps : List ℚ
  calls : Nat
  deriving DecidableEq

/-- Embedding of the retry loop of `upload_task` (`upload_audio.py` lines
182-196): `for attempt in range(1, MAX_RETRIES + 1)`.  `fuel` is the number
of remaining iterations (`m - attempt + 1` at entry); on failure with
`attempt < m` the worker sleeps `BACKOFF_BASE * attempt + random.uniform(0, 2)`
and retries, otherwise the row resolves to `"failed"` and is spooled. -/
def uploadLoop (cid url : String) (env : RowEnv) (b : ℚ) (m : Nat) :
    Nat → Nat → LoopOut
  | _, 0 => ⟨none, [], [], 0⟩
  | attempt, fuel + 1 =>
    match upload_recording cid url (env.attempt attempt) with
    | (Except.ok r, sl) => ⟨some ⟨cid, r.1, r.2, "uploaded"⟩, [], sl, 1⟩
    | (Except.error _, sl) =>
      if attempt < m then
        let rest := uploadLoop cid url env b m (attempt + 1) fuel
        ⟨rest.result, rest.failed,
         sl ++ (b * (attempt : ℚ) + env.backoffJitter attempt) :: rest.sleeps,
         rest.calls + 1⟩
      else
        ⟨some ⟨cid, none, none, "failed"⟩, [⟨cid, url⟩], sl, 1⟩

/-- Side effects of one `upload_task` call: the cache after the task, the
entries appended to `failed_records` and `skipped_no_url_records`, the
sleeps performed, the number of `_upload_recording` invocations, and the
number of HEAD network calls issued. -/
structure TaskEffects where
  cache : List String
  failed : List FailedRec
  skipped : List String
  sleeps : List ℚ
  storeCalls : Nat
  headCalls : Nat
  deriving DecidableEq

/-- Embedding of `upload_task` (`upload_audio.py` lines 160-196).  A falsy
source URL resolves to `"skipped_no_stereo_url"`; otherwise the bucket is
probed; on a hit, a signed URL is issued (a falsy issued URL resolves to
`"failed"` with a spool entry); on a miss the retry loop runs. -/
def upload_task (row : Row) (env : RowEnv) (cache : List String) (b : ℚ) (m : Nat) :
    Option TaskResult × TaskEffects :=
  if strTruthy row.stereo_recording_url = false then
    (some ⟨row.id, none, none, "skipped_no_stereo_url"⟩, ⟨cache, [], [row.id], [], 0, 0⟩)
  else
    let url := row.stereo_recording_url.getD ""
    let pr := file_exists_in_bucket cache row.id env.head
    let hc : Nat := if pr.2.2 then 1 else 0
    if pr.1 then
      let r := generate_signed_url row.id env.existsIssue env.existsExpiryIso
      if strTruthy r.signed_url then
        (some ⟨row.id, r.signed_url, r.expiry, "signed_url_generated"⟩,
         ⟨pr.2.1, [], [], [], 0, hc⟩)
      else
        (some ⟨row.id, none, none, "failed"⟩,
         ⟨pr.2.1, [⟨row.id, url⟩], [], [], 0, hc⟩)
    else
      let out := uploadLoop row.id url env b m 1 m
      (out.result, ⟨pr.2.1, out.failed, [], out.sleeps, out.calls, hc⟩)

/-- Result of mapping `upload_task` over all rows: the rows paired with
their results (in submission order, as `executor.map` preserves it), the
accumulated `failed_records` and `skipped_no_url_records`, and the final
cache.  `none` models a task returning Python `None` (unpacking crash). -/
structure RunOut where
  pairs : List (Row × TaskResult)
  failed : List FailedRec
  skipped : List String
  finalCache : List String
  deriving DecidableEq

/-- Sequential model of the worker pool: one `upload_task` per row, cache
threaded through.  Row `i` sees environment `env i`. -/
def runRows (b : ℚ) (m : Nat) : List Row → (Nat → RowEnv) → List String → Option RunOut
  | [], _, cache => some ⟨[], [], [], cache⟩
  | row :: rest, env, cache =>
    match upload_task row (env 0) cache b m with
    | (none, _) => none
    | (some tr, eff) =>
      match runRows b m rest (fun i => env (i + 1)) eff.cache with
      | none => none
      | some out =>
          some ⟨(row, tr) :: out.pairs, eff.failed ++ out.failed,
                eff.skipped ++ out.skipped, out.finalCache⟩

/-- The summary dictionary built at the end of `upload_recordings_parallel`. -/
structure Summary where
  total : Nat
  success : Nat
  uploaded : Nat
  signed_url_generated : Nat
  skipped_no_stereo_url : Nat
  failed : Nat
  deriving DecidableEq

/-- Full result of `upload_recordings_parallel`: the row/result pairs, the
failed and skipped record lists, the summary, and the spool write:
`some l` means `failed_uploads.csv` was overwritten (pandas `to_csv`,
write mode) with exactly the rows `l`; `none` means no write happened. -/
structure OrchResult where
  pairs : List (Row × TaskResult)
  failedRecords : List FailedRec
  skippedRecords : List String
  summary : Summary
  spool : Option (List FailedRec)
  deriving DecidableEq

/-- Embedding of `upload_recordings_parallel` (`upload_audio.py` lines
148-251): run every row, count dispositions by string equality, and write
the spool file only when `failed_records` is non-empty. -/
def upload_recordings_parallel (rows : List Row) (env : Nat → RowEnv)
    (b : ℚ) (m : Nat) : Option OrchResult :=
  match runRows b m rows env [] with
  | none => none
  | some out =>
    let results := out.pairs.map (·.2)
    let uploadedCount := results.countP (fun r => r.status == "uploaded")
    let signedCount := results.countP (fun r => r.status == "signed_url_generated")
    let skippedCount := results.countP (fun r => r.status == "skipped_no_stereo_url")
    let failedCount := results.countP (fun r => r.status == "failed")
    some
      { pairs := out.pairs
        failedRecords := out.failed
        skippedRecords := out.skipped
        summary :=
          { total := rows.length
            success := uploadedCount + signedCount
            uploaded := uploadedCount
            signed_url_generated := signedCount
            skipped_no_stereo_url := skippedCount
            failed := failedCount }
        spool := if out.failed.isEmpty then none else some out.failed }

/-- Fixture: a row environment whose probe answers 404 and whose every
upload attempt fails with a generic download error. -/
def envGen : RowEnv :=
  { head := .status 404
    existsIssue := .raises
    existsExpiryIso := "2030-01-01T00:00:00+00:00"
    attempt := fun _ => ⟨.downloadFails "boom", 0, "2030-01-01T00:00:00+00:00"⟩
    backoffJitter := fun _ => 0 }

/-- Fixture: probe answers 404; download and store succeed but signed-URL
issuance raises on every attempt. -/
def envOkRaises : RowEnv :=
  { head := .status 404
    existsIssue := .raises
    existsExpiryIso := "2030-01-01T00:00:00+00:00"
    attempt := fun _ => ⟨.ok .raises, 0, "2030-01-01T00:00:00+00:00"⟩
    backoffJitter := fun _ => 0 }

/-- Fixture: attempt 1 hits the transient congestion condition, attempt 2
succeeds with a signed URL. -/
def envCong : RowEnv :=
  { head := .status 404
    existsIssue := .raises
    existsExpiryIso := "2030-01-01T00:00:00+00:00"
    attempt := fun n =>
      if n = 1 then ⟨.congestion, 0, "2030-01-01T00:00:00+00:00"⟩
      else ⟨.ok (.returns (some "https://signed.example/x") none), 0, "2030-01-01T00:00:00+00:00"⟩
    backoffJitter := fun _ => 0 }

/-- Fixture rows: one with no URL, one with a URL, one with an empty URL. -/
def rowsW : List Row := [⟨"a", none⟩, ⟨"b", some "http://b.example/audio"⟩, ⟨"c", some ""⟩]

/-- Fixture row with a present source URL. -/
def rowB : Row := ⟨"b", some "http://b.example/audio"⟩

/-- Whether an issuance outcome is a failure in the sense of the spec:
either the remote call raised, or the response carried no (truthy) URL. -/
def issueFailed : IssueOutcome → Bool
  | .raises => true
  | .returns f1 f2 => !strTruthy (pyOr f1 f2)

end UploadAudio

namespace UploadAudio

/-- A key already in the cache makes the probe return true with no network
call and an unchanged cache. -/
theorem mem_probe (cache : List String) (k : String) (h : HeadOutcome)
    (hk : k ∈ cache) : file_exists_in_bucket cache k h = (true, cache, false) := by
  simp [file_exists_in_bucket, hk]

/-- A probe that returns true leaves the key in the resulting cache. -/
theorem probe_true_mem (cache : List String) (k : String) (h : HeadOutcome)
    (ht : (file_exists_in_bucket cache k h).1 = true) :
    k ∈ (file_exists_in_bucket cache k h).2.1 := by
  by_cases hk : k ∈ cache
  · simp [file_exists_in_bucket, hk]
  · cases h with
    | status code =>
      by_cases hc : code = 200
      · simp [file_exists_in_bucket, hk, hc]
      · simp [file_exists_in_bucket, hk, hc] at ht
    | exn => simp [file_exists_in_bucket, hk] at ht

/-- Probing never removes a key from the cache. -/
theorem probe_cache_grows (cache : List String) (k j : String) (h : HeadOutcome)
    (hj : j ∈ cache) : j ∈ (file_exists_in_bucket cache k h).2.1 := by
  by_cases hk : k ∈ cache
  · simpa [file_exists_in_bucket, hk] using hj
  · cases h with
    | status code =>
      by_cases hc : code = 200
      · simp [file_exists_in_bucket, hk, hc, hj]
      · simpa [file_exists_in_bucket, hk, hc] using hj
    | exn => simpa [file_exists_in_bucket, hk] using hj

/-- Cache membership survives any further sequence of probes. -/
theorem probeRun_mem (j : String) :
    ∀ (steps : List (String × HeadOutcome)) (cache : List String),
      j ∈ cache → j ∈ probeRun cache steps := by
  intro steps
  induction steps with
  | nil => intro cache hj; simpa [probeRun] using hj
  | cons p rest ih =>
    intro cache hj
    obtain ⟨k, h⟩ := p
    exact ih _ (probe_cache_grows cache k j h hj)

/-- Any result returned by the retry loop carries the row's key and is
either an upload success (no spool entry) or the failed shape with exactly
one spool entry holding the original URL. -/
theorem uploadLoop_shape (cid url : String) (env : RowEnv) (b : ℚ) (m : Nat) :
    ∀ (fuel attempt : Nat) (tr : TaskResult),
      (uploadLoop cid url env b m attempt fuel).result = some tr →
      tr.call_id = cid ∧
      ((tr.status = "uploaded" ∧ (uploadLoop cid url env b m attempt fuel).failed = []) ∨
       (tr.signed_url = none ∧ tr.expiry = none ∧ tr.status = "failed" ∧
        (uploadLoop cid url env b m attempt fuel).failed = [⟨cid, url⟩])) := by
  intro fuel
  induction fuel with
  | zero => intro attempt tr htr; simp [uploadLoop] at htr
  | succ f ih =>
    intro attempt tr htr
    rcases hup : upload_recording cid url (env.attempt attempt) with ⟨res, sl⟩
    cases res with
    | ok r =>
      simp [uploadLoop, hup] at htr
      subst htr
      simp [uploadLoop, hup]
    | error e =>
      by_cases ha : attempt < m
      · simp [uploadLoop, hup, ha] at htr ⊢
        exact ih (attempt + 1) tr htr
      · simp [uploadLoop, hup, ha] at htr
        subst htr
        simp [uploadLoop, hup, ha]

/-- With at least one remaining iteration the retry loop always returns a
result (the Python loop never falls through when it runs at all). -/
theorem uploadLoop_total (cid url : String) (env : RowEnv) (b : ℚ) (m : Nat) :
    ∀ (fuel attempt : Nat), 1 ≤ fuel → m + 1 ≤ attempt + fuel →
      ∃ tr, (uploadLoop cid url env b m attempt fuel).result = some tr := by
  intro fuel
  induction fuel with
  | zero => intro attempt h1 _; omega
  | succ f ih =>
    intro attempt _ hinv
    rcases hup : upload_recording cid url (env.attempt attempt) with ⟨res, sl⟩
    cases res with
    | ok r =>
      exact ⟨⟨cid, r.1, r.2, "uploaded"⟩, by simp [uploadLoop, hup]⟩
    | error e =>
      by_cases ha : attempt < m
      · have hf : 1 ≤ f := by omega
        obtain ⟨tr, htr⟩ := ih (attempt + 1) hf (by omega)
        exact ⟨tr, by simpa [uploadLoop, hup, ha] using htr⟩
      · exact ⟨⟨cid, none, none, "failed"⟩, by simp [uploadLoop, hup, ha]⟩

/-- When every attempt fails, the loop resolves to the failed shape, spools
exactly one entry, and invokes the store operation once per iteration. -/
theorem uploadLoop_all_fail (cid url : String) (env : RowEnv) (b : ℚ) (m : Nat)
    (hfail : ∀ n, failsOutcome (env.attempt n).fetch = true) :
    ∀ (fuel attempt : Nat), 1 ≤ fuel → attempt + fuel = m + 1 →
      (uploadLoop cid url env b m attempt fuel).result = some ⟨cid, none, none, "failed"⟩ ∧
      (uploadLoop cid url env b m attempt fuel).failed = [⟨cid, url⟩] ∧
      (uploadLoop cid url env b m attempt fuel).calls = fuel := by
  intro fuel
  induction fuel with
  | zero => intro attempt h1 _; omega
  | succ f ih =>
    intro attempt _ hinv
    have hf := hfail attempt
    rcases hup : upload_recording cid url (env.attempt attempt) with ⟨res, sl⟩
    cases res with
    | ok r =>
      exfalso
      rcases hfetch : (env.attempt attempt).fetch with c | c | _ | iss <;>
        simp [upload_recording, hfetch] at hup <;>
        simp [failsOutcome, hfetch] at hf
    | error e =>
      by_cases ha : attempt < m
      · have hrec := ih (attempt + 1) (by omega) (by omega)
        simp [uploadLoop, hup, ha]
        exact ⟨hrec.1, hrec.2.1, hrec.2.2⟩
      · have : attempt = m := by omega
        have hfz : f = 0 := by omega
        subst hfz
        simp [uploadLoop, hup, ha]

/-- One unfolding step of the retry loop on a failing attempt that still
has retries left: the backoff sleep is appended and the loop recurses. -/
theorem uploadLoop_succ_error (cid url : String) (env : RowEnv) (b : ℚ) (m : Nat)
    (attempt fuel : Nat) (e : UploadError) (sl : List ℚ)
    (hup : upload_recording cid url (env.attempt attempt) = (.error e, sl))
    (ha : attempt < m) :
    uploadLoop cid url env b m attempt (fuel + 1) =
      ⟨(uploadLoop cid url env b m (attempt + 1) fuel).result,
       (uploadLoop cid url env b m (attempt + 1) fuel).failed,
       sl ++ (b * (attempt : ℚ) + env.backoffJitter attempt) ::
         (uploadLoop cid url env b m (attempt + 1) fuel).sleeps,
       (uploadLoop cid url env b m (attempt + 1) fuel).calls + 1⟩ := by
  simp [uploadLoop, hup, ha]

/-- When every attempt fails generically (no congestion), the sleep trace
is exactly one linear-backoff wait per non-final attempt. -/
theorem uploadLoop_generic_sleeps (cid url : String) (env : RowEnv) (b : ℚ) (m : Nat)
    (hfail : ∀ n, genericFail (env.attempt n).fetch = true) :
    ∀ (fuel attempt : Nat), 1 ≤ fuel → attempt + fuel = m + 1 →
      (uploadLoop cid url env b m attempt fuel).sleeps =
        (List.range (fuel - 1)).map
          (fun i => b * ((attempt + i : ℕ) : ℚ) + env.backoffJitter (attempt + i)) := by
  intro fuel
  induction fuel with
  | zero => intro attempt h1 _; omega
  | succ f ih =>
    intro attempt _ hinv
    have hg := hfail attempt
    have hup : ∃ e, upload_recording cid url (env.attempt attempt) = (.error e, []) := by
      rcases hfetch : (env.attempt attempt).fetch with c | c | _ | iss
      · exact ⟨.runtimeError cid c, by simp [upload_recording, hfetch]⟩
      · exact ⟨.runtimeError cid c, by simp [upload_recording, hfetch]⟩
      · simp [genericFail, hfetch] at hg
      · simp [genericFail, hfetch] at hg
    obtain ⟨e, hup⟩ := hup
    by_cases ha : attempt < m
    · have hf1 : 1 ≤ f := by omega
      have hrec := ih (attempt + 1) hf1 (by omega)
      rw [uploadLoop_succ_error cid url env b m attempt f e [] hup ha]
      simp only [hrec, Nat.add_sub_cancel, List.nil_append]
      obtain ⟨g, rfl⟩ : ∃ g, f = g + 1 := ⟨f - 1, by omega⟩
      simp only [Nat.add_sub_cancel, List.range_succ_eq_map, List.map_cons, List.map_map]
      refine List.cons_eq_cons.mpr ⟨by simp, ?_⟩
      apply List.map_congr_left
      intro i _
      have h3 : attempt + 1 + i = attempt + (i + 1) := by omega
      simp only [Function.comp_apply, Nat.succ_eq_add_one, h3]
    · have : attempt = m := by omega
      have hfz : f = 0 := by omega
      subst hfz
      simp [uploadLoop, hup, ha]

/-- A congestion signal on attempt 1 followed by a success on attempt 2:
the extra congestion sleep precedes the ordinary backoff wait, and exactly
one retry attempt is consumed by the congestion (two store calls total). -/
theorem uploadLoop_congestion_step (cid url : String) (env : RowEnv) (b : ℚ) (m : Nat)
    (iss : IssueOutcome)
    (h1 : (env.attempt 1).fetch = .congestion)
    (h2 : (env.attempt 2).fetch = .ok iss)
    (hm : 2 ≤ m) :
    uploadLoop cid url env b m 1 m =
      ⟨some ⟨cid, (generate_signed_url cid iss (env.attempt 2).expiryIso).signed_url,
             (generate_signed_url cid iss (env.attempt 2).expiryIso).expiry, "uploaded"⟩,
       [], [3 + (env.attempt 1).congJitter, b * 1 + env.backoffJitter 1], 2⟩ := by
  obtain ⟨k, rfl⟩ : ∃ k, m = k + 2 := ⟨m - 2, by omega⟩
  have hlt : 1 < k + 2 := by omega
  simp [uploadLoop, upload_recording, h1, h2, hlt]

end UploadAudio

namespace UploadAudio

/-- Every returned task result carries the row's key and falls into exactly
one of the four disposition shapes, with the matching spool behaviour. -/
theorem upload_task_shape (row : Row) (env : RowEnv) (cache : List String) (b : ℚ) (m : Nat)
    (tr : TaskResult) (htr : (upload_task row env cache b m).1 = some tr) :
    tr.call_id = row.id ∧
    ((tr.status = "skipped_no_stereo_url" ∧ tr.signed_url = none ∧ tr.expiry = none ∧
        (upload_task row env cache b m).2.failed = [] ∧
        strTruthy row.stereo_recording_url = false) ∨
     (tr.status = "signed_url_generated" ∧ strTruthy tr.signed_url = true ∧
        (upload_task row env cache b m).2.failed = []) ∨
     (tr.status = "uploaded" ∧ (upload_task row env cache b m).2.failed = []) ∨
     (tr.status = "failed" ∧ tr.signed_url = none ∧ tr.expiry = none ∧
        (upload_task row env cache b m).2.failed =
          [⟨row.id, row.stereo_recording_url.getD ""⟩] ∧
        strTruthy row.stereo_recording_url = true)) := by
  by_cases hu : strTruthy row.stereo_recording_url = false
  · simp only [upload_task, hu, if_true] at htr ⊢
    simp at htr
    subst htr
    simp [hu]
  · rcases hpr : file_exists_in_bucket cache row.id env.head with ⟨ex, cache1, net⟩
    cases ex
    · simp only [upload_task, hu, if_false, hpr] at htr ⊢
      have hshape := uploadLoop_shape row.id (row.stereo_recording_url.getD "") env b m m 1 tr htr
      simp only [Bool.false_eq_true, if_false]
      refine ⟨hshape.1, ?_⟩
      rcases hshape.2 with ⟨h1, h2⟩ | ⟨h1, h2, h3, h4⟩
      · exact Or.inr (Or.inr (Or.inl ⟨h1, h2⟩))
      · exact Or.inr (Or.inr (Or.inr ⟨h3, h1, h2, h4, by simpa using hu⟩))
    · by_cases hsu : strTruthy (generate_signed_url row.id env.existsIssue env.existsExpiryIso).signed_url = true
      · simp only [upload_task, hu, if_false, hpr, hsu] at htr ⊢
        simp at htr
        subst htr
        simp [hsu]
      · simp only [upload_task, hu, if_false, hpr] at htr ⊢
        rw [if_neg hsu] at htr ⊢
        simp at htr
        subst htr
        simp [hu]

/-- With `MAX_RETRIES` at least one, every task returns a result. -/
theorem upload_task_total (row : Row) (env : RowEnv) (cache : List String) (b : ℚ) (m : Nat)
    (hm : 1 ≤ m) : ∃ tr, (upload_task row env cache b m).1 = some tr := by
  by_cases hu : strTruthy row.stereo_recording_url = false
  · exact ⟨⟨row.id, none, none, "skipped_no_stereo_url"⟩, by simp [upload_task, hu]⟩
  · rcases hpr : file_exists_in_bucket cache row.id env.head with ⟨ex, cache1, net⟩
    cases ex
    · obtain ⟨tr, htr⟩ := uploadLoop_total row.id (row.stereo_recording_url.getD "") env b m m 1
        hm (by omega)
      exact ⟨tr, by simpa [upload_task, hu, hpr] using htr⟩
    · by_cases hsu : strTruthy (generate_signed_url row.id env.existsIssue env.existsExpiryIso).signed_url = true
      · exact ⟨⟨row.id,
          (generate_signed_url row.id env.existsIssue env.existsExpiryIso).signed_url,
          (generate_signed_url row.id env.existsIssue env.existsExpiryIso).expiry,
          "signed_url_generated"⟩, by simp [upload_task, hu, hpr, hsu]⟩
      · have hsu2 : strTruthy (generate_signed_url row.id env.existsIssue env.existsExpiryIso).signed_url = false := by
          simpa using hsu
        exact ⟨⟨row.id, none, none, "failed"⟩, by simp [upload_task, hu, hpr, hsu2]⟩

/-- The sequential run over all rows returns row/result pairs in order,
every result has one of the four dispositions, and the accumulated
`failed_records` list is exactly the failed rows with their original URLs. -/
theorem runRows_spec (b : ℚ) (m : Nat) (hm : 1 ≤ m) :
    ∀ (rows : List Row) (env : Nat → RowEnv) (cache : List String),
      ∃ out, runRows b m rows env cache = some out ∧
        out.pairs.map Prod.fst = rows ∧
        (∀ p ∈ out.pairs, p.2.status = "uploaded" ∨ p.2.status = "signed_url_generated" ∨
          p.2.status = "skipped_no_stereo_url" ∨ p.2.status = "failed") ∧
        out.failed = (out.pairs.filter (fun p => p.2.status == "failed")).map
          (fun p => ⟨p.1.id, p.1.stereo_recording_url.getD ""⟩) := by
  intro rows
  induction rows with
  | nil =>
    intro env cache
    exact ⟨⟨[], [], [], cache⟩, by simp [runRows], by simp, by simp, by simp⟩
  | cons row rest ih =>
    intro env cache
    obtain ⟨tr, htr⟩ := upload_task_total row (env 0) cache b m hm
    have hshape := upload_task_shape row (env 0) cache b m tr htr
    rcases hef : upload_task row (env 0) cache b m with ⟨otr, eff⟩
    rw [hef] at htr hshape
    simp only at htr hshape
    subst htr
    obtain ⟨out, hrun, hfst, hstat, hfail⟩ := ih (fun i => env (i + 1)) eff.cache
    refine ⟨⟨(row, tr) :: out.pairs, eff.failed ++ out.failed,
             eff.skipped ++ out.skipped, out.finalCache⟩, ?_, ?_, ?_, ?_⟩
    · simp [runRows, hef, hrun]
    · simp [hfst]
    · intro p hp
      rcases List.mem_cons.mp hp with hp | hp
      · subst hp
        rcases hshape.2 with ⟨h1, _⟩ | ⟨h1, _⟩ | ⟨h1, _⟩ | ⟨h1, _⟩
        · exact Or.inr (Or.inr (Or.inl h1))
        · exact Or.inr (Or.inl h1)
        · exact Or.inl h1
        · exact Or.inr (Or.inr (Or.inr h1))
      · exact hstat p hp
    · rcases hshape.2 with ⟨h1, _, _, hf, _⟩ | ⟨h1, _, hf⟩ | ⟨h1, hf⟩ | ⟨h1, _, _, hf, _⟩ <;>
        simp [List.filter_cons, h1, hf, hfail]

/-- A list of task results each carrying one of the four disposition
strings is counted exactly once by the four disposition counters. -/
theorem countP_four (l : List TaskResult)
    (h : ∀ r ∈ l, r.status = "uploaded" ∨ r.status = "signed_url_generated" ∨
      r.status = "skipped_no_stereo_url" ∨ r.status = "failed") :
    l.countP (fun r => r.status == "uploaded") +
    l.countP (fun r => r.status == "signed_url_generated") +
    l.countP (fun r => r.status == "skipped_no_stereo_url") +
    l.countP (fun r => r.status == "failed") = l.length := by
  induction l with
  | nil => simp
  | cons r t ih =>
    have hr := h r (by simp)
    have ht := ih (fun x hx => h x (by simp [hx]))
    rcases hr with h1 | h1 | h1 | h1 <;>
      simp [List.countP_cons, h1] <;> omega

end UploadAudio

namespace UploadAudio

/-- C1: for every input row collection (with `MAX_RETRIES ≥ 1`, as in the
shipped configuration), the summary produced by `upload_recordings_parallel`
satisfies `uploaded + signed_url_generated + skipped_no_stereo_url + failed
= total`, where `total` is the number of input rows: folding the per-row
terminal dispositions by simple counting accounts for every row exactly
once.  (`skipped_no_stereo_url` is the code's name for the spec's
`skipped_no_source_url`.) -/
theorem upload_total_accounting (rows : List Row) (env : Nat → RowEnv) (b : ℚ) (m : Nat)
    (hm : 1 ≤ m) :
    ∃ o, upload_recordings_parallel rows env b m = some o ∧
      o.summary.uploaded + o.summary.signed_url_generated +
        o.summary.skipped_no_stereo_url + o.summary.failed = o.summary.total := by
  obtain ⟨out, hrun, hfst, hstat, _⟩ := runRows_spec b m hm rows env []
  have hres : ∀ r ∈ out.pairs.map (fun p => p.2),
      r.status = "uploaded" ∨ r.status = "signed_url_generated" ∨
      r.status = "skipped_no_stereo_url" ∨ r.status = "failed" := by
    intro r hr
    obtain ⟨p, hp, rfl⟩ := List.mem_map.mp hr
    exact hstat p hp
  have hcount := countP_four (out.pairs.map (fun p => p.2)) hres
  have hlen : (out.pairs.map (fun p => p.2)).length = rows.length := by
    rw [List.length_map, ← hfst, List.length_map]
  refine ⟨_, by simp only [upload_recordings_parallel, hrun]; rfl, ?_⟩
  simpa using hcount.trans hlen

/-- Witness for C1 at a concrete three-row input. -/
theorem upload_total_accounting_witness :
    ∃ o, upload_recordings_parallel rowsW (fun _ => envGen) 2 3 = some o ∧
      o.summary.uploaded + o.summary.signed_url_generated +
        o.summary.skipped_no_stereo_url + o.summary.failed = o.summary.total :=
  upload_total_accounting rowsW (fun _ => envGen) 2 3 (by decide)

/-- C2 counterexample: a row whose probe misses, whose download and store
succeed, and whose signed-URL issuance raises, resolves to disposition
`"uploaded"` with an absent `signed_url` — contradicting the claim that no
outcome with disposition uploaded has an absent signed_url. -/
theorem uploaded_without_signed_url_cex :
    (upload_task ⟨"c1", some "http://x.example/a"⟩ envOkRaises [] 2 3).1 =
      some ⟨"c1", none, none, "uploaded"⟩ := rfl

/-- C2 amended: `signed_url` is truthy whenever the disposition is
`signed_url_generated`, absent whenever the disposition is skipped or
failed, and a truthy `signed_url` implies disposition uploaded or
signed_url_generated; but a row with disposition `uploaded` may carry an
absent `signed_url` (when issuance fails after a successful store). -/
theorem signed_url_presence_amended (row : Row) (env : RowEnv) (cache : List String)
    (b : ℚ) (m : Nat) (tr : TaskResult)
    (htr : (upload_task row env cache b m).1 = some tr) :
    (tr.status = "signed_url_generated" → strTruthy tr.signed_url = true) ∧
    (tr.status = "skipped_no_stereo_url" → tr.signed_url = none) ∧
    (tr.status = "failed" → tr.signed_url = none) ∧
    (strTruthy tr.signed_url = true →
      tr.status = "uploaded" ∨ tr.status = "signed_url_generated") := by
  have hshape := (upload_task_shape row env cache b m tr htr).2
  refine ⟨?_, ?_, ?_, ?_⟩ <;> intro h <;>
    rcases hshape with ⟨h1, hrest⟩ | ⟨h1, hrest⟩ | ⟨h1, hrest⟩ | ⟨h1, hrest⟩ <;>
    simp_all [strTruthy]

/-- Witness for C2's amended claim on a skipped row. -/
theorem signed_url_presence_amended_witness :
    (⟨"a", none, none, "skipped_no_stereo_url"⟩ : TaskResult).signed_url = none :=
  (signed_url_presence_amended ⟨"a", none⟩ envGen [] 2 3
    ⟨"a", none, none, "skipped_no_stereo_url"⟩ rfl).2.1 rfl

/-- C3 counterexample: when download and store succeed but signed-URL
issuance raises, `_upload_recording` returns normally (success) with a null
signed URL — a stored-but-unsigned object reported as success, contradicting
the claim that the operation succeeds only if all three steps succeed. -/
theorem fetch_store_unsigned_success_cex :
    upload_recording "c1" "http://x.example/a"
        ⟨.ok .raises, 0, "2030-01-01T00:00:00+00:00"⟩ =
      (.ok (none, none), []) := rfl

/-- C3 amended: the fetch-and-store operation returns without raising iff
download and store both succeed; signed-URL issuance failure does not fail
the operation.  Every raised failure is a single typed error that either is
the re-raised congestion signal or carries the record key and cause. -/
theorem fetch_store_failure_amended (cid url : String) (e : UploadAttemptEnv) :
    ((∃ v, (upload_recording cid url e).1 = Except.ok v) ↔
      (∃ iss, e.fetch = FetchOutcome.ok iss)) ∧
    (∀ err, (upload_recording cid url e).1 = Except.error err →
      err = UploadError.congestionRaised ∨
        ∃ c, err = UploadError.runtimeError cid c) := by
  rcases hf : e.fetch with c | c | _ | iss <;> simp [upload_recording, hf]

/-- Witness for C3's amended claim at a concrete download failure. -/
theorem fetch_store_failure_amended_witness :
    UploadError.runtimeError "c1" "boom" = UploadError.congestionRaised ∨
      ∃ c, UploadError.runtimeError "c1" "boom" = UploadError.runtimeError "c1" c :=
  (fetch_store_failure_amended "c1" "http://x.example/a"
      ⟨.downloadFails "boom", 0, "2030-01-01T00:00:00+00:00"⟩).2
    (UploadError.runtimeError "c1" "boom") rfl

/-- C4: with `MAX_RETRIES ≥ 1`, every row resolves to exactly one of the
four terminal dispositions and no exception escapes the per-row task — the
task is total over every collaborator behaviour (probe outcome, issuance
outcome, download/store outcome), and a failed disposition always comes
with exactly one spool entry. -/
theorem row_terminal_isolation (row : Row) (env : RowEnv) (cache : List String)
    (b : ℚ) (m : Nat) (hm : 1 ≤ m) :
    ∃ tr, (upload_task row env cache b m).1 = some tr ∧
      (tr.status = "uploaded" ∨ tr.status = "signed_url_generated" ∨
        tr.status = "skipped_no_stereo_url" ∨ tr.status = "failed") ∧
      (tr.status = "failed" →
        (upload_task row env cache b m).2.failed =
          [⟨row.id, row.stereo_recording_url.getD ""⟩]) := by
  obtain ⟨tr, htr⟩ := upload_task_total row env cache b m hm
  have hshape := upload_task_shape row env cache b m tr htr
  refine ⟨tr, htr, ?_, ?_⟩
  · rcases hshape.2 with ⟨h1, _⟩ | ⟨h1, _⟩ | ⟨h1, _⟩ | ⟨h1, _⟩
    · exact Or.inr (Or.inr (Or.inl h1))
    · exact Or.inr (Or.inl h1)
    · exact Or.inl h1
    · exact Or.inr (Or.inr (Or.inr h1))
  · intro h
    rcases hshape.2 with ⟨h1, _⟩ | ⟨h1, _⟩ | ⟨h1, _⟩ | ⟨h1, _, _, h4, _⟩
    · rw [h1] at h; exact absurd h (by decide)
    · rw [h1] at h; exact absurd h (by decide)
    · rw [h1] at h; exact absurd h (by decide)
    · exact h4

/-- Witness for C4 on a row whose every upload attempt fails. -/
theorem row_terminal_isolation_witness :
    ∃ tr, (upload_task rowB envGen [] 2 3).1 = some tr ∧
      (tr.status = "uploaded" ∨ tr.status = "signed_url_generated" ∨
        tr.status = "skipped_no_stereo_url" ∨ tr.status = "failed") ∧
      (tr.status = "failed" →
        (upload_task rowB envGen [] 2 3).2.failed =
          [⟨rowB.id, rowB.stereo_recording_url.getD ""⟩]) :=
  row_terminal_isolation rowB envGen [] 2 3 (by decide)

/-- C5: a row with a present source URL whose probe returns false and whose
store operation fails on every attempt invokes the store operation exactly
`MAX_RETRIES` times — no more, no fewer — before resolving to `failed`. -/
theorem retry_exact_bound (row : Row) (env : RowEnv) (cache : List String)
    (b : ℚ) (m : Nat) (hm : 1 ≤ m)
    (hurl : strTruthy row.stereo_recording_url = true)
    (hprobe : (file_exists_in_bucket cache row.id env.head).1 = false)
    (hfail : ∀ n, failsOutcome (env.attempt n).fetch = true) :
    (upload_task row env cache b m).1 = some ⟨row.id, none, none, "failed"⟩ ∧
    (upload_task row env cache b m).2.storeCalls = m := by
  have hloop := uploadLoop_all_fail row.id (row.stereo_recording_url.getD "") env b m hfail
    m 1 hm (by omega)
  rcases hpr : file_exists_in_bucket cache row.id env.head with ⟨ex, cache1, net⟩
  rw [hpr] at hprobe
  simp only at hprobe
  subst hprobe
  constructor
  · simpa [upload_task, hurl, hpr] using hloop.1
  · simpa [upload_task, hurl, hpr] using hloop.2.2

/-- Witness for C5 with the shipped `MAX_RETRIES = 3`. -/
theorem retry_exact_bound_witness :
    (upload_task rowB envGen [] 2 3).1 = some ⟨rowB.id, none, none, "failed"⟩ ∧
    (upload_task rowB envGen [] 2 3).2.storeCalls = 3 :=
  retry_exact_bound rowB envGen [] 2 3 (by decide) rfl (by decide) (fun _ => rfl)

/-- C6 counterexample: when the remote issuance response carries no URL at
all, `_generate_signed_url` returns a null URL together with a normal
locally-computed expiry and a success log — a silently returned null URL,
not an explicit failure signal distinct from it. -/
theorem issuer_silent_null_url_cex :
    generate_signed_url "c1" (.returns none none) "2030-01-01T00:00:00+00:00" =
      ⟨none, some "2030-01-01T00:00:00+00:00", true⟩ := rfl

/-- C6 amended: the issuer signals failure only through the nullness of the
returned URL: the URL is falsy iff issuance failed (raise, or a response
carrying no truthy URL); a raise yields `(None, None)` with an error log,
while an URL-less response still yields the locally computed expiry and the
success log. -/
theorem issuer_failure_by_null_url_amended (cid : String) (o : IssueOutcome) (e : String) :
    (strTruthy (generate_signed_url cid o e).signed_url = false ↔ issueFailed o = true) ∧
    (o = IssueOutcome.raises → generate_signed_url cid o e = ⟨none, none, false⟩) ∧
    (∀ f1 f2, o = IssueOutcome.returns f1 f2 →
      (generate_signed_url cid o e).expiry = some e ∧
      (generate_signed_url cid o e).loggedSuccess = true) := by
  cases o <;> simp [generate_signed_url, issueFailed, strTruthy, Bool.not_eq_true']

/-- Witness for C6's amended claim on a raised issuance error. -/
theorem issuer_failure_by_null_url_amended_witness :
    generate_signed_url "c6" IssueOutcome.raises "2030-01-01T00:00:00+00:00" =
      ⟨none, none, false⟩ :=
  (issuer_failure_by_null_url_amended "c6" IssueOutcome.raises
    "2030-01-01T00:00:00+00:00").2.1 rfl

/-- C7: once the existence probe has returned true for a key, any later
probe for the same key within the run — after any sequence of intervening
probes — returns true, leaves the cache unchanged, and issues no further
network call: the in-run existence cache is monotonic. -/
theorem cache_monotonic (cache : List String) (k : String) (h1 : HeadOutcome)
    (steps : List (String × HeadOutcome)) (h2 : HeadOutcome)
    (htrue : (file_exists_in_bucket cache k h1).1 = true) :
    file_exists_in_bucket (probeRun (file_exists_in_bucket cache k h1).2.1 steps) k h2 =
      (true, probeRun (file_exists_in_bucket cache k h1).2.1 steps, false) :=
  mem_probe _ k h2 (probeRun_mem k steps _ (probe_true_mem cache k h1 htrue))

/-- Witness for C7 at a concrete probe sequence. -/
theorem cache_monotonic_witness :
    file_exists_in_bucket
        (probeRun (file_exists_in_bucket [] "k" (.status 200)).2.1 [("j", .status 200)])
        "k" .exn =
      (true, probeRun (file_exists_in_bucket [] "k" (.status 200)).2.1
        [("j", .status 200)], false) :=
  cache_monotonic [] "k" (.status 200) [("j", .status 200)] .exn (by decide)

/-- C8: the wait before upload attempt `n + 1` is `BACKOFF_BASE * n` plus
the attempt's jitter (linear backoff, one wait per non-final failing
attempt), and a transient congestion condition triggers an extra sleep of
`3` seconds plus jitter before being re-raised into normal retry
accounting, consuming exactly one retry attempt. -/
theorem retry_backoff_policy (cid url : String) (env : RowEnv) (b : ℚ) (m : Nat) :
    ((∀ n, genericFail (env.attempt n).fetch = true) → 1 ≤ m →
      (uploadLoop cid url env b m 1 m).sleeps =
        (List.range (m - 1)).map
          (fun i => b * ((1 + i : ℕ) : ℚ) + env.backoffJitter (1 + i))) ∧
    (∀ iss : IssueOutcome, (env.attempt 1).fetch = .congestion →
      (env.attempt 2).fetch = .ok iss → 2 ≤ m →
      uploadLoop cid url env b m 1 m =
        ⟨some ⟨cid, (generate_signed_url cid iss (env.attempt 2).expiryIso).signed_url,
               (generate_signed_url cid iss (env.attempt 2).expiryIso).expiry, "uploaded"⟩,
         [], [3 + (env.attempt 1).congJitter, b * 1 + env.backoffJitter 1], 2⟩) := by
  constructor
  · intro hgen hm
    exact uploadLoop_generic_sleeps cid url env b m hgen m 1 hm (by omega)
  · intro iss h1 h2 hm
    exact uploadLoop_congestion_step cid url env b m iss h1 h2 hm

/-- Witness for C8's congestion branch at the shipped configuration. -/
theorem retry_backoff_policy_witness :
    uploadLoop "c1" "http://x.example/a" envCong 2 3 1 3 =
      ⟨some ⟨"c1",
        (generate_signed_url "c1" (.returns (some "https://signed.example/x") none)
          (envCong.attempt 2).expiryIso).signed_url,
        (generate_signed_url "c1" (.returns (some "https://signed.example/x") none)
          (envCong.attempt 2).expiryIso).expiry, "uploaded"⟩,
       [], [3 + (envCong.attempt 1).congJitter, 2 * 1 + envCong.backoffJitter 1], 2⟩ :=
  (retry_backoff_policy "c1" "http://x.example/a" envCong 2 3).2
    (.returns (some "https://signed.example/x") none) rfl rfl (by decide)

/-- C9 counterexample: a run in which no row fails does not write the
failed-record spool file at all (`spool = none`), contradicting the claim
that the file is overwritten on every run. -/
theorem spool_not_written_on_clean_run_cex :
    (upload_recordings_parallel [⟨"c1", none⟩] (fun _ => envGen) 2 3).map OrchResult.spool =
      some none := rfl

/-- C9 amended: the spool file is written (overwritten, once, after the
pool drains) exactly when at least one row failed, and then contains
exactly the rows whose terminal disposition is failed, each entry holding
the row's key and original source URL; its length equals the summary's
failed count. -/
theorem spool_written_iff_failures_amended (rows : List Row) (env : Nat → RowEnv)
    (b : ℚ) (m : Nat) (hm : 1 ≤ m) :
    ∃ o, upload_recordings_parallel rows env b m = some o ∧
      o.spool = (if o.failedRecords.isEmpty then none else some o.failedRecords) ∧
      o.failedRecords = (o.pairs.filter (fun p => p.2.status == "failed")).map
        (fun p => ⟨p.1.id, p.1.stereo_recording_url.getD ""⟩) ∧
      o.failedRecords.length = o.summary.failed := by
  obtain ⟨out, hrun, hfst, hstat, hfail⟩ := runRows_spec b m hm rows env []
  refine ⟨_, by simp only [upload_recordings_parallel, hrun]; rfl, ?_, ?_, ?_⟩
  · rfl
  · exact hfail
  · show out.failed.length =
      (out.pairs.map (fun p => p.2)).countP (fun r => r.status == "failed")
    rw [hfail, List.length_map, ← List.countP_eq_length_filter, List.countP_map]
    rfl

/-- Witness for C9's amended claim at a concrete three-row input. -/
theorem spool_written_iff_failures_amended_witness :
    ∃ o, upload_recordings_parallel rowsW (fun _ => envGen) 2 3 = some o ∧
      o.spool = (if o.failedRecords.isEmpty then none else some o.failedRecords) ∧
      o.failedRecords = (o.pairs.filter (fun p => p.2.status == "failed")).map
        (fun p => ⟨p.1.id, p.1.stereo_recording_url.getD ""⟩) ∧
      o.failedRecords.length = o.summary.failed :=
  spool_written_iff_failures_amended rowsW (fun _ => envGen) 2 3 (by decide)

/-- C10: a row whose source URL is present but empty (Python-falsy) is
treated identically to a row whose URL is absent: it resolves to
`skipped_no_stereo_url` with absent signed URL and expiry, no probe
(`headCalls = 0`), no upload attempt (`storeCalls = 0`, no sleeps), and an
unchanged cache. -/
theorem empty_url_skipped (cid : String) (env : RowEnv) (cache : List String)
    (b : ℚ) (m : Nat) :
    upload_task ⟨cid, some ""⟩ env cache b m = upload_task ⟨cid, none⟩ env cache b m ∧
    upload_task ⟨cid, some ""⟩ env cache b m =
      (some ⟨cid, none, none, "skipped_no_stereo_url"⟩, ⟨cache, [], [cid], [], 0, 0⟩) :=
  ⟨rfl, rfl⟩

end UploadAudio
